import Mathlib

/-!
Verification companion for `run_all_experiments.py`, the DARES batch
experiment driver.  The script is embedded shallowly:

* the static tables `MODELS`, `DARES1_SETTINGS`, `DARES2_SETTINGS` and the
  hyperparameter constants are transcribed literally;
* the command construction of `run_experiment` (source lines 56-69) becomes
  the pure function `run_experiment_cmd`;
* the subprocess/timing behaviour of `run_experiment` (source lines 77-90)
  becomes `run_experiment_result`, driven by an abstract `RunOutcome`
  (success, `CalledProcessError`, `KeyboardInterrupt`) and a `Clock`
  holding the two wall-clock reads (`time.time()` before and after the
  run); clock values are modelled as rationals;
* the nested loops of `main` (source lines 111-148) become the static
  `schedule` list and the indexed fold `run_schedule`; the outcome of the
  i-th subprocess invocation is supplied by an oracle `ℕ → RunOutcome × Clock`;
* the summary computations of `main` (source lines 151-166) become
  `successful_count`, `failed_count` and `failed_experiments`.
-/

/-- Model descriptor, one row of the `MODELS` table:
`(model_name, model_type, model_short)`. -/
structure ModelSpec where
  name : String
  model_type : String
  short : String
deriving DecidableEq

/-- Experiment setting, one row of a settings table:
`(run_mode, append_column, grain_type)`; `append_column` is `None` or a
string in the source. -/
structure Setting where
  run_mode : String
  append_column : Option String
  grain_type : String
deriving DecidableEq

/-- The `MODELS` table (source lines 14-20). -/
def MODELS : List ModelSpec :=
  [⟨"CAMeL-Lab/bert-base-arabic-camelbert-mix", "bert", "CAMeLBERTmix"⟩,
   ⟨"aubmindlab/bert-base-arabertv2", "bert", "AraBERTv2"⟩,
   ⟨"aubmindlab/araelectra-base-discriminator", "electra", "AraELECTRA"⟩,
   ⟨"google-bert/bert-base-multilingual-cased", "bert", "mBERT"⟩,
   ⟨"xlm-roberta-base", "xlmroberta", "XLM-R"⟩]

/-- The `DARES1_SETTINGS` table (source lines 23-32). -/
def DARES1_SETTINGS : List Setting :=
  [⟨"raw", none, "Fine"⟩,
   ⟨"append_word", some "Word", "Fine"⟩,
   ⟨"append_filename", some "Arabic_Filename", "Fine"⟩,
   ⟨"raw_cat", none, "Coarse"⟩,
   ⟨"append_word_categorised", some "Word", "Coarse"⟩,
   ⟨"append_filename_categorised", some "Arabic_Filename", "Coarse"⟩]

/-- The `DARES2_SETTINGS` table (source lines 35-46). -/
def DARES2_SETTINGS : List Setting :=
  [⟨"raw", none, "Fine"⟩,
   ⟨"append_word", some "Word", "Fine"⟩,
   ⟨"append_filename", some "Arabic_Filename", "Fine"⟩,
   ⟨"word_file", some "word_file", "Fine"⟩,
   ⟨"raw_cat", none, "Coarse"⟩,
   ⟨"append_word_categorised", some "Word", "Coarse"⟩,
   ⟨"append_filename_categorised", some "Arabic_Filename", "Coarse"⟩,
   ⟨"word_file_cat", some "word_file_cat", "Coarse"⟩]

/-- Training constant `NUM_EPOCHS = 4` (source line 49). -/
def NUM_EPOCHS : Nat := 4

/-- Training constant `N_FOLD = 3` (source line 50). -/
def N_FOLD : Nat := 3

/-- Training constant `CUDA_DEVICE = 0` (source line 51). -/
def CUDA_DEVICE : Nat := 0

/-- The learning-rate argument exactly as the source passes it: the source
stores the float `LR = 0.00001` (line 52) and places `str(LR)` in the
command; Python renders this float as `"1e-05"`. -/
def LR_STRING : String := "1e-05"

/-- Python truthiness of the optional string `append_column`: `None` and the
empty string are falsy, any non-empty string is truthy (source line 68 tests
`if append_column:`). -/
def py_truthy : Option String → Bool
  | none => false
  | some s => !s.isEmpty

/-- The command list built by `run_experiment` (source lines 56-69).
`sys_executable` stands for `sys.executable`, an environment-dependent
interpreter path.  The numeric constants appear through `str(...)` and the
trailing `--append_column` pair is appended only when `append_column` is
truthy. -/
def run_experiment_cmd (sys_executable experiment_script model_name model_type
    run_mode : String) (append_column : Option String) : List String :=
  [sys_executable, "-m", experiment_script,
   "--model_name", model_name,
   "--model_type", model_type,
   "--num_train_epochs", toString NUM_EPOCHS,
   "--run_mode", run_mode,
   "--n_fold", toString N_FOLD,
   "--cuda_device", toString CUDA_DEVICE,
   "--lr", LR_STRING,
   "--save_predictions", "True"] ++
  (if py_truthy append_column then ["--append_column", append_column.getD ""] else [])

/-- How the subprocess invocation inside `run_experiment` terminates:
normally, with a non-zero exit (raising `CalledProcessError` under
`check=True`), or interrupted by `KeyboardInterrupt`. -/
inductive RunOutcome
  | success
  | calledProcessError
  | keyboardInterrupt
deriving DecidableEq

/-- The two wall-clock reads of one `run_experiment` call: `start` is
`time.time()` taken at line 77, `stop` the read taken after the subprocess
returns or fails (lines 81 and 85). -/
structure Clock where
  start : ℚ
  stop : ℚ
deriving DecidableEq

/-- The `(success, elapsed-seconds)` pair returned by `run_experiment`
(source lines 79-90): a normal exit returns `(True, elapsed)`, a
`CalledProcessError` returns `(False, elapsed)` with the same elapsed-time
computation, and a `KeyboardInterrupt` returns `(False, 0)` without reading
the clock again. -/
def run_experiment_result (outcome : RunOutcome) (c : Clock) : Bool × ℚ :=
  match outcome with
  | .success => (true, c.stop - c.start)
  | .calledProcessError => (false, c.stop - c.start)
  | .keyboardInterrupt => (false, 0)

/-- One planned invocation of `run_experiment` by `main`: the dataset label
and module identifier passed for the phase, plus the model and setting rows
of the current loop iteration. -/
structure ScheduledRun where
  dataset : String
  script : String
  model : ModelSpec
  setting : Setting
deriving DecidableEq

/-- The invocation sequence of `main` (source lines 111-148): the DARES1.0
phase iterates models (outer) and `DARES1_SETTINGS` (inner), then the
DARES2.0 phase iterates models and `DARES2_SETTINGS`. -/
def schedule : List ScheduledRun :=
  (MODELS.flatMap fun m => DARES1_SETTINGS.map fun s =>
    ⟨"DARES1.0", "experiments.dares1.0_assess", m, s⟩) ++
  (MODELS.flatMap fun m => DARES2_SETTINGS.map fun s =>
    ⟨"DARES2.0", "experiments.dares2.0_assess", m, s⟩)

/-- One entry of the `results` list (source lines 119-126 and 141-148):
`time_min` stores the elapsed seconds divided by 60. -/
structure ResultRecord where
  dataset : String
  model : String
  run_mode : String
  grain : String
  success : Bool
  time_min : ℚ
deriving DecidableEq

/-- The dictionary appended to `results` after one `run_experiment` call. -/
def mk_record (e : ScheduledRun) (outcome : RunOutcome) (c : Clock) : ResultRecord :=
  let r := run_experiment_result outcome c
  { dataset := e.dataset, model := e.model.short, run_mode := e.setting.run_mode,
    grain := e.setting.grain_type, success := r.1, time_min := r.2 / 60 }

/-- Runs the remaining scheduled experiments starting at invocation index
`i`, where `oracle j` supplies the outcome and the two clock reads of the
`j`-th subprocess invocation. -/
def run_schedule (oracle : ℕ → RunOutcome × Clock) : ℕ → List ScheduledRun → List ResultRecord
  | _, [] => []
  | i, e :: rest => mk_record e (oracle i).1 (oracle i).2 :: run_schedule oracle (i + 1) rest

/-- The full `results` list accumulated by `main` when the `i`-th subprocess
invocation behaves as `oracle i` prescribes. -/
def main_results (oracle : ℕ → RunOutcome × Clock) : List ResultRecord :=
  run_schedule oracle 0 schedule

/-- Summary count `successful` (source line 152). -/
def successful_count (results : List ResultRecord) : ℕ :=
  (results.filter fun r => r.success).length

/-- Summary count `failed` (source line 153). -/
def failed_count (results : List ResultRecord) : ℕ :=
  (results.filter fun r => !r.success).length

/-- The identifying fields printed for each failed experiment
(source lines 164-166): dataset, model short name and run mode, in results
order. -/
def failed_experiments (results : List ResultRecord) : List (String × String × String) :=
  (results.filter fun r => !r.success).map fun r => (r.dataset, r.model, r.run_mode)

/-- Placeholder `ScheduledRun` used as the `getD` default. -/
def no_run : ScheduledRun := ⟨"", "", ⟨"", "", ""⟩, ⟨"", none, ""⟩⟩

/-- Placeholder `ResultRecord` used as the `getD` default. -/
def no_record : ResultRecord := ⟨"", "", "", "", true, 0⟩

/-- The `(module identifier, setting)` pairs that `main` actually passes to
`run_experiment`: each DARES1.0 setting with the DARES1.0 module, each
DARES2.0 setting with the DARES2.0 module. -/
def dares_pairings : List (String × Setting) :=
  (DARES1_SETTINGS.map fun s => ("experiments.dares1.0_assess", s)) ++
  (DARES2_SETTINGS.map fun s => ("experiments.dares2.0_assess", s))

/-! ### Helper lemmas -/

lemma run_schedule_length (oracle : ℕ → RunOutcome × Clock) :
    ∀ (l : List ScheduledRun) (i : ℕ), (run_schedule oracle i l).length = l.length := by
  intro l
  induction l with
  | nil => intro i; rfl
  | cons e rest ih => intro i; simpa [run_schedule] using ih (i + 1)

lemma main_results_length (oracle : ℕ → RunOutcome × Clock) :
    (main_results oracle).length = 70 := by
  rw [main_results, run_schedule_length]
  decide

lemma run_schedule_getD (oracle : ℕ → RunOutcome × Clock) :
    ∀ (l : List ScheduledRun) (i j : ℕ), j < l.length →
      (run_schedule oracle i l).getD j no_record =
        mk_record (l.getD j no_run) (oracle (i + j)).1 (oracle (i + j)).2 := by
  intro l
  induction l with
  | nil => intro i j h; exact absurd h (Nat.not_lt_zero j)
  | cons e rest ih =>
    intro i j h
    cases j with
    | zero => simp [run_schedule]
    | succ j =>
      have h' : j < rest.length := Nat.lt_of_succ_lt_succ h
      have := ih (i + 1) j h'
      simpa [run_schedule, Nat.add_assoc, Nat.add_comm 1 j] using this

lemma main_results_getD (oracle : ℕ → RunOutcome × Clock) (i : ℕ) (hi : i < 70) :
    (main_results oracle).getD i no_record =
      mk_record (schedule.getD i no_run) (oracle i).1 (oracle i).2 := by
  have hlen : i < schedule.length := by
    have : schedule.length = 70 := by decide
    omega
  simpa using run_schedule_getD oracle schedule 0 i hlen

/-- The record produced for invocation `i` depends only on the oracle's
answer at `i` (and on the static schedule). -/
lemma main_results_getD_congr (o o' : ℕ → RunOutcome × Clock) (i : ℕ)
    (h : o i = o' i) :
    (main_results o).getD i no_record = (main_results o').getD i no_record := by
  by_cases hi : i < 70
  · rw [main_results_getD o i hi, main_results_getD o' i hi, h]
  · have h70 : (70 : ℕ) ≤ i := Nat.le_of_not_lt hi
    rw [List.getD_eq_default _ _ (by rw [main_results_length]; exact h70),
      List.getD_eq_default _ _ (by rw [main_results_length]; exact h70)]

/-- Generic shape of `run_experiment_cmd`: the fixed head followed by the
optional `--append_column` pair. -/
lemma run_experiment_cmd_def (sys_executable experiment_script model_name model_type
    run_mode : String) (append_column : Option String) :
    run_experiment_cmd sys_executable experiment_script model_name model_type
        run_mode append_column =
      [sys_executable, "-m", experiment_script,
       "--model_name", model_name, "--model_type", model_type,
       "--num_train_epochs", "4", "--run_mode", run_mode,
       "--n_fold", "3", "--cuda_device", "0", "--lr", "1e-05",
       "--save_predictions", "True"] ++
      (if py_truthy append_column then ["--append_column", append_column.getD ""]
       else []) := rfl

/-- When the append column is absent, the token `--append_column` appears
nowhere in the command, provided none of the five free-form string arguments
happens to be that very token. -/
lemma append_column_not_mem (sys_executable experiment_script model_name model_type
    run_mode : String)
    (h1 : sys_executable ≠ "--append_column") (h2 : experiment_script ≠ "--append_column")
    (h3 : model_name ≠ "--append_column") (h4 : model_type ≠ "--append_column")
    (h5 : run_mode ≠ "--append_column") :
    "--append_column" ∉ run_experiment_cmd sys_executable experiment_script
      model_name model_type run_mode none := by
  intro hmem
  simp only [run_experiment_cmd_def, py_truthy, Bool.false_eq_true, if_false,
    List.append_nil, List.mem_cons, List.not_mem_nil, or_false] at hmem
  rcases hmem with h|h|h|h|h|h|h|h|h|h|h|h|h|h|h|h <;>
    first
      | exact h1 h.symm
      | exact h2 h.symm
      | exact h3 h.symm
      | exact h4 h.symm
      | exact h5 h.symm
      | exact absurd h (by decide)

/-! ### Claims -/

/-- C1: for every model row of `MODELS` and every `(module, setting)` pair
drawn from the DARES1.0 or DARES2.0 tables as `main` passes them, the command
built by `run_experiment` contains the adjacent pair `--run_mode <run_mode>`;
it omits the token `--append_column` entirely when the setting's column is
null, and contains the adjacent pair `--append_column <col>` when the column
is non-null.  (The interpreter path is arbitrary, only assumed to differ
from the flag token itself.) -/
theorem cmd_run_mode_and_append_column (sys_executable : String)
    (hexe : sys_executable ≠ "--append_column")
    (m : ModelSpec) (hm : m ∈ MODELS)
    (script : String) (s : Setting) (hs : (script, s) ∈ dares_pairings) :
    ["--run_mode", s.run_mode] <:+:
      run_experiment_cmd sys_executable script m.name m.model_type s.run_mode
        s.append_column ∧
    (match s.append_column with
     | none => "--append_column" ∉
         run_experiment_cmd sys_executable script m.name m.model_type s.run_mode
           s.append_column
     | some c => ["--append_column", c] <:+:
         run_experiment_cmd sys_executable script m.name m.model_type s.run_mode
           s.append_column) := by
  fin_cases hm <;> fin_cases hs <;>
    refine ⟨ List.infix_cons (by decide), ?_⟩ <;>
    first
      | exact append_column_not_mem _ _ _ _ _ hexe (by decide) (by decide) (by decide)
          (by decide)
      | exact List.infix_cons (by decide)

/-- Witness for C1 at the DARES1.0 `append_word` setting and the XLM-R model
with interpreter path `python3`. -/
theorem cmd_run_mode_and_append_column_witness :
    ["--run_mode", "append_word"] <:+:
      run_experiment_cmd "python3" "experiments.dares1.0_assess" "xlm-roberta-base"
        "xlmroberta" "append_word" (some "Word") ∧
    ["--append_column", "Word"] <:+:
      run_experiment_cmd "python3" "experiments.dares1.0_assess" "xlm-roberta-base"
        "xlmroberta" "append_word" (some "Word") :=
  cmd_run_mode_and_append_column "python3" (by decide)
    ⟨"xlm-roberta-base", "xlmroberta", "XLM-R"⟩ (by decide)
    "experiments.dares1.0_assess" ⟨"append_word", some "Word", "Fine"⟩ (by decide)

/-- C9: `run_experiment` tests the append column by Python truthiness, not by
a null test: an empty-string column omits the `--append_column` pair exactly
as `None` does, and for any non-empty column the command is the flagless
command extended with the pair. -/
theorem empty_append_column_omitted (sys_executable experiment_script model_name
    model_type run_mode : String) :
    run_experiment_cmd sys_executable experiment_script model_name model_type
        run_mode (some "") =
      run_experiment_cmd sys_executable experiment_script model_name model_type
        run_mode none ∧
    (∀ c : String, c ≠ "" →
      run_experiment_cmd sys_executable experiment_script model_name model_type
          run_mode (some c) =
        run_experiment_cmd sys_executable experiment_script model_name model_type
            run_mode none ++ ["--append_column", c]) := by
  constructor
  · rfl
  · intro c hc
    have hfalse : c.isEmpty = false := by
      rcases Bool.eq_false_or_eq_true c.isEmpty with h | h
      · exact absurd ((String.isEmpty_iff c).1 h) hc
      · exact h
    simp [run_experiment_cmd_def, py_truthy, hfalse]

/-- Witness for C9: empty string and the concrete column `Word` with
interpreter path `python3`. -/
theorem empty_append_column_omitted_witness :
    run_experiment_cmd "python3" "experiments.dares1.0_assess" "a" "b" "raw"
        (some "") =
      run_experiment_cmd "python3" "experiments.dares1.0_assess" "a" "b" "raw"
        none ∧
    run_experiment_cmd "python3" "experiments.dares1.0_assess" "a" "b" "raw"
        (some "Word") =
      run_experiment_cmd "python3" "experiments.dares1.0_assess" "a" "b" "raw"
        none ++ ["--append_column", "Word"] :=
  ⟨(empty_append_column_omitted "python3" "experiments.dares1.0_assess" "a" "b"
      "raw").1,
   (empty_append_column_omitted "python3" "experiments.dares1.0_assess" "a" "b"
      "raw").2 "Word" (by decide)⟩

/-- C7 counterexample: the launched command does not contain the token
`0.00001` anywhere; the learning-rate value is passed as `1e-05`, the string
Python produces for `str(0.00001)`.  Shown at the concrete DARES1.0 `raw`
XLM-R invocation with interpreter path `python3`. -/
theorem lr_token_not_decimal :
    "0.00001" ∉ run_experiment_cmd "python3" "experiments.dares1.0_assess"
        "xlm-roberta-base" "xlmroberta" "raw" none ∧
    ["--lr", "1e-05"] <:+: run_experiment_cmd "python3" "experiments.dares1.0_assess"
        "xlm-roberta-base" "xlmroberta" "raw" none := by decide

/-- C7 (amended): every experiment's command is exactly
`[interp, -m, script, --model_name, <name>, --model_type, <type>,
--num_train_epochs, 4, --run_mode, <mode>, --n_fold, 3, --cuda_device, 0,
--lr, 1e-05, --save_predictions, True]` followed, for a non-null append
column, by the pair `--append_column <col>`; and in the schedule the module
identifier is the fixed DARES1.0 module for every DARES1.0 run and the fixed
DARES2.0 module for every DARES2.0 run. -/
theorem cmd_exact_template (sys_executable model_name model_type : String)
    (script : String) (s : Setting) (hs : (script, s) ∈ dares_pairings) :
    run_experiment_cmd sys_executable script model_name model_type s.run_mode
        s.append_column =
      [sys_executable, "-m", script, "--model_name", model_name,
       "--model_type", model_type, "--num_train_epochs", "4",
       "--run_mode", s.run_mode, "--n_fold", "3", "--cuda_device", "0",
       "--lr", "1e-05", "--save_predictions", "True"] ++
      (match s.append_column with
       | none => []
       | some c => ["--append_column", c]) ∧
    (∀ e ∈ schedule,
      (e.dataset = "DARES1.0" → e.script = "experiments.dares1.0_assess") ∧
      (e.dataset = "DARES2.0" → e.script = "experiments.dares2.0_assess")) := by
  constructor
  · fin_cases hs <;> rfl
  · decide

/-- C2: `main` accumulates exactly
`(|DARES1_SETTINGS| + |DARES2_SETTINGS|) * |MODELS| = (6+8)*5 = 70` result
records — one per experiment invocation — whatever the subprocess outcomes,
and every `(model, setting)` combination occurs exactly once per dataset
version in the invocation schedule. -/
theorem total_experiment_count :
    (∀ oracle : ℕ → RunOutcome × Clock,
      (main_results oracle).length =
        (DARES1_SETTINGS.length + DARES2_SETTINGS.length) * MODELS.length ∧
      (main_results oracle).length = 70) ∧
    (∀ m ∈ MODELS, ∀ s ∈ DARES1_SETTINGS,
      schedule.count
        (⟨"DARES1.0", "experiments.dares1.0_assess", m, s⟩ : ScheduledRun) = 1) ∧
    (∀ m ∈ MODELS, ∀ s ∈ DARES2_SETTINGS,
      schedule.count
        (⟨"DARES2.0", "experiments.dares2.0_assess", m, s⟩ : ScheduledRun) = 1) := by
  refine ⟨fun oracle => ⟨?_, main_results_length oracle⟩, by decide, by decide⟩
  rw [main_results_length]
  decide

/-- Witness for C2 at a constant all-success oracle and the XLM-R `raw`
DARES1.0 combination. -/
theorem total_experiment_count_witness :
    (main_results fun _ => (.success, ⟨0, 0⟩)).length = 70 ∧
    schedule.count
      (⟨"DARES1.0", "experiments.dares1.0_assess",
        ⟨"xlm-roberta-base", "xlmroberta", "XLM-R"⟩,
        ⟨"raw", none, "Fine"⟩⟩ : ScheduledRun) = 1 :=
  ⟨(total_experiment_count.1 _).2,
   total_experiment_count.2.1 _ (by decide) _ (by decide)⟩

/-- C3: the invocation sequence is deterministic: for `i < 30` the `i`-th
invocation (0-based) is the DARES1.0 run of model `i / 6` with setting
`i % 6`, and for `30 ≤ i < 70` it is the DARES2.0 run of model
`(i - 30) / 8` with setting `(i - 30) % 8`; consequently every DARES1.0
experiment strictly precedes every DARES2.0 experiment, and within each phase
models follow the `MODELS` table order with settings in table order inside
each model. -/
theorem schedule_deterministic_order :
    (∀ i : ℕ, i < 70 →
      schedule.getD i no_run =
        if i < 30 then
          ⟨"DARES1.0", "experiments.dares1.0_assess",
            MODELS.getD (i / 6) ⟨"", "", ""⟩,
            DARES1_SETTINGS.getD (i % 6) ⟨"", none, ""⟩⟩
        else
          ⟨"DARES2.0", "experiments.dares2.0_assess",
            MODELS.getD ((i - 30) / 8) ⟨"", "", ""⟩,
            DARES2_SETTINGS.getD ((i - 30) % 8) ⟨"", none, ""⟩⟩) ∧
    (∀ i : ℕ, i < 70 → ∀ j : ℕ, j < 70 →
      (schedule.getD i no_run).dataset = "DARES1.0" →
      (schedule.getD j no_run).dataset = "DARES2.0" → i < j) :=
  ⟨by decide, by decide⟩

/-- Witness for C3: invocation 35 is the DARES2.0 run of model 0 with
setting 5, and invocation 3 (a DARES1.0 run) precedes invocation 40
(a DARES2.0 run). -/
theorem schedule_deterministic_order_witness :
    schedule.getD 35 no_run =
      ⟨"DARES2.0", "experiments.dares2.0_assess", MODELS.getD 0 ⟨"", "", ""⟩,
        DARES2_SETTINGS.getD 5 ⟨"", none, ""⟩⟩ ∧ (3 : ℕ) < 40 :=
  ⟨schedule_deterministic_order.1 35 (by decide),
   schedule_deterministic_order.2 3 (by decide) 40 (by decide) (by decide) (by decide)⟩

/-- C4: a `CalledProcessError` (non-zero subprocess exit) makes
`run_experiment` return `success = false` together with the measured elapsed
time; the driver still produces all 70 records whatever the outcomes, and
each record depends only on its own invocation's outcome, so one failure
never perturbs the remaining cross-product. -/
theorem nonzero_exit_nonfatal :
    (∀ c : Clock,
      run_experiment_result .calledProcessError c = (false, c.stop - c.start)) ∧
    (∀ oracle : ℕ → RunOutcome × Clock, (main_results oracle).length = 70) ∧
    (∀ o o' : ℕ → RunOutcome × Clock, ∀ i : ℕ, o i = o' i →
      (main_results o).getD i no_record = (main_results o').getD i no_record) :=
  ⟨fun _ => rfl, main_results_length, main_results_getD_congr⟩

/-- Witness for C4: a failed run with clock reads 2 and 5 reports
`(false, 3)` seconds, the batch still has 70 records, and record 5 is the
same whether or not invocation 0 failed. -/
theorem nonzero_exit_nonfatal_witness :
    run_experiment_result .calledProcessError ⟨2, 5⟩ = (false, (5 : ℚ) - 2) ∧
    (main_results fun _ => (.calledProcessError, ⟨0, 0⟩)).length = 70 ∧
    (main_results fun i =>
        (if i = 0 then RunOutcome.calledProcessError else .success, ⟨0, 0⟩)).getD
        5 no_record =
      (main_results fun _ => (RunOutcome.success, ⟨0, 0⟩)).getD 5 no_record :=
  ⟨nonzero_exit_nonfatal.1 ⟨2, 5⟩, nonzero_exit_nonfatal.2.1 _,
   nonzero_exit_nonfatal.2.2 _ _ 5 rfl⟩

/-- C5: a `KeyboardInterrupt` during the subprocess wait makes
`run_experiment` return `(false, 0)`; the record of the interrupted
invocation reports `success = false` with `time_min = 0`, and replacing one
invocation's outcome (e.g. by an interrupt) leaves the record count at 70
and every other record unchanged: the driver's loops continue with the later
experiments. -/
theorem interrupt_zero_time_batch_continues :
    (∀ c : Clock, run_experiment_result .keyboardInterrupt c = (false, 0)) ∧
    (∀ (oracle : ℕ → RunOutcome × Clock) (k : ℕ), k < 70 →
      (oracle k).1 = .keyboardInterrupt →
      ((main_results oracle).getD k no_record).success = false ∧
      ((main_results oracle).getD k no_record).time_min = 0) ∧
    (∀ (oracle : ℕ → RunOutcome × Clock) (k : ℕ) (w : RunOutcome × Clock),
      (main_results (Function.update oracle k w)).length = 70 ∧
      ∀ i : ℕ, i ≠ k →
        (main_results (Function.update oracle k w)).getD i no_record =
          (main_results oracle).getD i no_record) := by
  refine ⟨fun _ => rfl, ?_, ?_⟩
  · intro oracle k hk hint
    rw [main_results_getD oracle k hk, hint]
    constructor <;> simp [mk_record, run_experiment_result]
  · intro oracle k w
    refine ⟨main_results_length _, fun i hik => main_results_getD_congr _ _ i ?_⟩
    exact Function.update_noteq hik w oracle

/-- Witness for C5: an interrupt with clock reads 0 and 5 reports
`(false, 0)`, record 2 of an all-interrupt batch has `time_min = 0`, and
updating invocation 2 to an interrupt leaves record 5 unchanged. -/
theorem interrupt_zero_time_batch_continues_witness :
    run_experiment_result .keyboardInterrupt ⟨0, 5⟩ = (false, 0) ∧
    ((main_results fun _ => (.keyboardInterrupt, ⟨0, 5⟩)).getD 2 no_record).time_min
      = 0 ∧
    (main_results (Function.update (fun _ => (RunOutcome.success, ⟨0, 0⟩)) 2
        (RunOutcome.keyboardInterrupt, ⟨0, 5⟩))).getD 5 no_record =
      (main_results fun _ => (RunOutcome.success, ⟨0, 0⟩)).getD 5 no_record :=
  ⟨interrupt_zero_time_batch_continues.1 ⟨0, 5⟩,
   (interrupt_zero_time_batch_continues.2.1 _ 2 (by decide) rfl).2,
   (interrupt_zero_time_batch_continues.2.2 _ 2 _).2 5 (by decide)⟩

/-- The elapsed seconds returned by `run_experiment` are non-negative as soon
as the end clock read is not earlier than the start read. -/
lemma elapsed_nonneg (outcome : RunOutcome) (c : Clock) (hc : c.start ≤ c.stop) :
    0 ≤ (run_experiment_result outcome c).2 := by
  cases outcome <;> simp [run_experiment_result, sub_nonneg] <;> exact hc

/-- Every record produced by `run_schedule` has non-negative `time_min` under
monotone clock reads. -/
lemma run_schedule_time_min_nonneg (oracle : ℕ → RunOutcome × Clock)
    (h : ∀ i : ℕ, (oracle i).2.start ≤ (oracle i).2.stop) :
    ∀ (l : List ScheduledRun) (i : ℕ), ∀ r ∈ run_schedule oracle i l,
      0 ≤ r.time_min := by
  intro l
  induction l with
  | nil => intro i r hr; simp [run_schedule] at hr
  | cons e rest ih =>
    intro i r hr
    rcases List.mem_cons.1 hr with rfl | hr
    · show 0 ≤ (run_experiment_result (oracle i).1 (oracle i).2).2 / 60
      exact div_nonneg (elapsed_nonneg (oracle i).1 (oracle i).2 (h i)) (by norm_num)
    · exact ih (i + 1) r hr

/-- C8: assuming each invocation's end clock read is not earlier than its
start read, every accumulated record has non-negative `time_min`; and a
successful run whose two clock reads coincide (an instantaneous run) yields
elapsed time exactly zero. -/
theorem time_min_nonneg (oracle : ℕ → RunOutcome × Clock)
    (h : ∀ i : ℕ, (oracle i).2.start ≤ (oracle i).2.stop) :
    (∀ r ∈ main_results oracle, 0 ≤ r.time_min) ∧
    (∀ c : Clock, c.stop = c.start → run_experiment_result .success c = (true, 0)) := by
  constructor
  · exact run_schedule_time_min_nonneg oracle h schedule 0
  · intro c hc
    simp [run_experiment_result, hc]

/-- Witness for C8 at a constant oracle whose clock reads coincide. -/
theorem time_min_nonneg_witness :
    0 ≤ ((main_results fun _ => (.success, ⟨3, 3⟩)).getD 0 no_record).time_min ∧
    run_experiment_result .success ⟨3, 3⟩ = (true, 0) :=
  ⟨(time_min_nonneg (fun _ => (.success, ⟨3, 3⟩)) fun _ => le_refl _).1 _ (by
      have h0 : 0 < (main_results fun _ => (RunOutcome.success, ⟨3, 3⟩)).length := by
        rw [main_results_length]
        norm_num
      rw [List.getD_eq_getElem _ no_record h0]
      exact List.getElem_mem h0),
   (time_min_nonneg (fun _ => (.success, ⟨3, 3⟩)) fun _ => le_refl _).2 ⟨3, 3⟩ rfl⟩

/-- C10: `run_experiment` returns elapsed seconds and the driver stores
`time_min` equal to that value divided by 60, for every record and uniformly
across success, failure and interrupt outcomes. -/
theorem time_min_division_uniform (oracle : ℕ → RunOutcome × Clock) (i : ℕ)
    (hi : i < 70) :
    ((main_results oracle).getD i no_record).time_min =
      (run_experiment_result (oracle i).1 (oracle i).2).2 / 60 := by
  rw [main_results_getD oracle i hi]
  rfl

/-- Witness for C10 at a constant interrupt oracle and invocation 0. -/
theorem time_min_division_uniform_witness :
    ((main_results fun _ => (.keyboardInterrupt, ⟨0, 120⟩)).getD 0 no_record).time_min
      = (run_experiment_result .keyboardInterrupt ⟨0, 120⟩).2 / 60 :=
  time_min_division_uniform _ 0 (by decide)

/-- C6: the summary counts successes and failures by filtering the results
list; when exactly one invocation `k` fails (non-zero exit) and every other
invocation succeeds, the summary reports `failed = 1`, `successful = 69`, and
the failed-experiments listing contains exactly the identifying fields
(dataset, model, run mode) of schedule entry `k`. -/
theorem single_failure_summary (k : ℕ) (hk : k < 70) :
    failed_count (main_results fun i =>
        (if i = k then .calledProcessError else .success, ⟨0, 0⟩)) = 1 ∧
    successful_count (main_results fun i =>
        (if i = k then .calledProcessError else .success, ⟨0, 0⟩)) = 69 ∧
    failed_experiments (main_results fun i =>
        (if i = k then .calledProcessError else .success, ⟨0, 0⟩)) =
      [((schedule.getD k no_run).dataset, (schedule.getD k no_run).model.short,
        (schedule.getD k no_run).setting.run_mode)] := by
  revert hk
  revert k
  decide

/-- Witness for C6 at failing invocation 7, the DARES1.0 `append_word` run of
AraBERTv2. -/
theorem single_failure_summary_witness :
    failed_count (main_results fun i =>
        (if i = 7 then .calledProcessError else .success, ⟨0, 0⟩)) = 1 ∧
    successful_count (main_results fun i =>
        (if i = 7 then .calledProcessError else .success, ⟨0, 0⟩)) = 69 ∧
    failed_experiments (main_results fun i =>
        (if i = 7 then .calledProcessError else .success, ⟨0, 0⟩)) =
      [("DARES1.0", "AraBERTv2", "append_word")] :=
  single_failure_summary 7 (by decide)

/-- Witness for C7's amended statement at the DARES2.0 `word_file` setting. -/
theorem cmd_exact_template_witness :
    run_experiment_cmd "python3" "experiments.dares2.0_assess" "xlm-roberta-base"
        "xlmroberta" "word_file" (some "word_file") =
      ["python3", "-m", "experiments.dares2.0_assess", "--model_name",
       "xlm-roberta-base", "--model_type", "xlmroberta", "--num_train_epochs",
       "4", "--run_mode", "word_file", "--n_fold", "3", "--cuda_device", "0",
       "--lr", "1e-05", "--save_predictions", "True"] ++
      ["--append_column", "word_file"] :=
  (cmd_exact_template "python3" "xlm-roberta-base" "xlmroberta"
    "experiments.dares2.0_assess" ⟨"word_file", some "word_file", "Fine"⟩
    (by decide)).1
